import Mathlib

/-!
Verification of the anomalib MVTec dataset indexer and the callback
assembler (`src/anomalib/data/mvtec.py` and
`src/anomalib/utils/callbacks/__init__.py`) against their natural-language
specification.

The pandas dataframe of `make_mvtec_dataset` is embedded as a Lean list of
records, the filesystem scan `path.glob("**/*.png")` is an input parameter
(a list of raw rows, one per discovered png file), and Python floats for
`split_ratio` are embedded as rationals, with `int(...)` truncation made
explicit.
-/

namespace Anomalib

/-- Raw scan row: the tuple `(str(path),) + filename.parts[-3:]` built at
mvtec.py line 124 for every png found under the category path. -/
structure RawRow where
  path : String
  split : String
  label : String
  image_path : String
deriving DecidableEq, Repr, Inhabited

/-- Dataframe row before the `label_index` column exists (mvtec.py lines
128-151 operate on these columns). -/
structure PreRow where
  path : String
  split : String
  label : String
  image_path : String
  mask_path : String
deriving DecidableEq, Repr, Inhabited

/-- Final dataframe row, after the `label_index` column is created at
mvtec.py lines 153-156. -/
structure Row where
  path : String
  split : String
  label : String
  image_path : String
  mask_path : String
  label_index : Int
deriving DecidableEq, Repr, Inhabited

/-- Python `str.rstrip(chars)`: remove trailing characters that occur in
`chars` (a character set, not a suffix). -/
def pyRstrip (s : String) (chars : String) : String :=
  String.mk ((s.data.reverse.dropWhile (fun c => chars.data.contains c)).reverse)

/-- Python `int(...)` applied to a number: truncation toward zero. -/
def pyInt (q : ℚ) : Int :=
  if 0 ≤ q then ⌊q⌋ else ⌈q⌉

/-- Step of the pseudo-random generator state used by `randomSample`. -/
def lcgNext (state : Nat) : Nat :=
  (6364136223846793005 * state + 1442695040888963407) % 18446744073709551616

/-- Selection loop of `randomSample`: repeatedly pick a position from the
remaining population using the generator state and remove it. -/
def sampleAux : Nat → Nat → List Nat → List Nat
  | _, 0, _ => []
  | _, _ + 1, [] => []
  | state, k + 1, x :: xs =>
    (x :: xs).get ⟨state % (x :: xs).length, Nat.mod_lt _ (Nat.succ_pos _)⟩ ::
      sampleAux (lcgNext state) k ((x :: xs).eraseIdx (state % (x :: xs).length))

/-- Embedding of the Python standard-library pair `random.seed(seed)`
followed by `random.sample(population, k)` (mvtec.py lines 69 and 75):
a deterministic pseudo-random selection of `min k population.length`
distinct elements of the population, a pure function of the seed and the
arguments.  A linear congruential generator stands in for CPython's
Mersenne Twister; the repository relies only on the sample being a
reproducible, seed-determined set of k distinct members of the population.
CPython's `random.sample` raises `ValueError` when k is negative or exceeds
the population size; this embedding does not model those error paths (the
selection loop stops at the population size and a negative k becomes 0), so
every theorem about the reassignment carries the hypothesis
`0 ≤ split_ratio ≤ 1`, under which `k = int(n * split_ratio)` always lies
in `[0, n]` and the two agree. -/
def randomSample (seed : Nat) (population : List Nat) (k : Nat) : List Nat :=
  sampleAux (lcgNext (seed + 1)) k population

/-- Boolean row predicate for `(samples.split == "test") & (samples.label == "good")`. -/
def isTestGoodPre (r : PreRow) : Bool :=
  r.split == "test" && r.label == "good"

/-- Boolean row predicate for `(samples.split == "train") & (samples.label == "good")`. -/
def isTrainGoodPre (r : PreRow) : Bool :=
  r.split == "train" && r.label == "good"

/-- Boolean row predicate for `samples.split == "train"`. -/
def isTrainPre (r : PreRow) : Bool :=
  r.split == "train"

/-- The pandas index list `samples.index[(samples.split == "train") &
(samples.label == "good")].to_list()` of mvtec.py line 71, with the
dataframe index embedded as the list position. -/
def normalTrainIndices (samples : List PreRow) : List Nat :=
  (List.range samples.length).filter (fun i => (samples.get? i).any isTrainGoodPre)

/-- The row indices `indices_to_split_from_train_set` drawn at mvtec.py
line 75: a seeded sample of `int(num_normal_train_images * split_ratio)`
normal training row indices. -/
def selectedIndices (samples : List PreRow) (split_ratio : ℚ) (seed : Nat) : List Nat :=
  randomSample seed (normalTrainIndices samples)
    (pyInt (((normalTrainIndices samples).length : ℚ) * split_ratio)).toNat

/-- The positional update `samples.loc[indices_to_split_from_train_set,
"split"] = "test"` of mvtec.py line 76, walking the rows with their index
starting at `i`. -/
def reassignAux (idxs : List Nat) : Nat → List PreRow → List PreRow
  | _, [] => []
  | i, r :: rs =>
    (if i ∈ idxs then { r with split := "test" } else r) :: reassignAux idxs (i + 1) rs

/-- Embedding of `split_normal_images_in_train_set` (mvtec.py lines 54-78):
reassign a seeded random `split_ratio` share of the normal training rows to
the test split. -/
def split_normal_images_in_train_set (samples : List PreRow) (split_ratio : ℚ)
    (seed : Nat) : List PreRow :=
  reassignAux (selectedIndices samples split_ratio seed) 0 samples

/-- Column construction of mvtec.py lines 131-142: derive the mask path
from the raw filename (`path + "/ground_truth/" + label + "/" + stem +
"_mask.png"` where the stem drops the png extension via two rstrips) and
absolutize the image path. -/
def mkPreRow (r : RawRow) : PreRow :=
  { path := r.path
    split := r.split
    label := r.label
    image_path := r.path ++ "/" ++ r.split ++ "/" ++ r.label ++ "/" ++ r.image_path
    mask_path := r.path ++ "/ground_truth/" ++ r.label ++ "/" ++
      pyRstrip (pyRstrip r.image_path "png") "." ++ "_mask.png" }

/-- The scan rows surviving the `samples.split != "ground_truth"` filter of
mvtec.py line 129, with the derived path columns of lines 131-142. -/
def scanPreRows (raw : List RawRow) : List PreRow :=
  (raw.filter (fun r => r.split != "ground_truth")).map mkPreRow

/-- Mask clearing of mvtec.py line 151: good test images have no
ground-truth mask, so their `mask_path` entry becomes the empty string. -/
def clearMaskIfTestGood (r : PreRow) : PreRow :=
  if r.split == "test" && r.label == "good" then { r with mask_path := "" } else r

/-- Label-index assignment of mvtec.py lines 153-156: 0 for rows labelled
"good", 1 for every other label. -/
def addLabelIndex (r : PreRow) : Row :=
  { path := r.path
    split := r.split
    label := r.label
    image_path := r.image_path
    mask_path := r.mask_path
    label_index := if r.label == "good" then 0 else 1 }

/-- The full samples table built by `make_mvtec_dataset` before the final
split filter of mvtec.py line 159: ground-truth filter, path columns, the
conditional seeded reassignment of lines 144-148, mask clearing and
label-index creation. -/
def mvtecFullTable (raw : List RawRow) (split_ratio : ℚ) (seed : Nat) : List Row :=
  ((if (scanPreRows raw).countP isTestGoodPre == 0 then
      split_normal_images_in_train_set (scanPreRows raw) split_ratio seed
    else scanPreRows raw).map clearMaskIfTestGood).map addLabelIndex

/-- Embedding of `make_mvtec_dataset` (mvtec.py lines 81-162).  The
filesystem scan result is the parameter `scan` (one raw row per png file
found under the category path); the `RuntimeError` of line 126 becomes the
error case. -/
def make_mvtec_dataset (path : String) (scan : List RawRow) (split : String)
    (split_ratio : ℚ) (seed : Nat) : Except String (List Row) :=
  if scan.length == 0 then Except.error ("Found 0 images in " ++ path)
  else Except.ok ((mvtecFullTable scan split_ratio seed).filter (fun r => r.split == split))

/-- Value stored in the item dictionary returned by the sample accessor:
a path string, an integer label, or a tensor (the tensor type is a
parameter, since tensors live in external libraries). -/
inductive ItemVal (T : Type) where
  | strVal (s : String)
  | intVal (i : Int)
  | tenVal (t : T)

/-- Python dict assignment `d[k] = v`: replace the value when the key is
present, otherwise append the pair, keeping insertion order. -/
def dictInsert {α : Type} (d : List (String × α)) (k : String) (v : α) :
    List (String × α) :=
  if d.any (fun kv => kv.1 == k) then
    d.map (fun kv => if kv.1 == k then (k, v) else kv)
  else d ++ [(k, v)]

/-- The columns of one samples row that `_MvtecDataset.__getitem__` reads. -/
structure SampleRow where
  image_path : String
  mask_path : String
  label_index : Int
deriving DecidableEq, Repr, Inhabited

/-- Embedding of `_MvtecDataset.__getitem__` (mvtec.py lines 265-306).
Image decoding and the albumentations transform are external collaborators,
so they are parameters: `read_image` stands for
`anomalib.data.utils.read_image`, `preprocessImage` for
`self.pre_process(image=...)["image"]`, `preprocessWithMask` for the joint
transform returning the image and mask tensors, `zerosLike` for
`np.zeros(shape=image.shape[:2])`, `readMaskFile` for
`cv2.imread(mask_path, flags=0)` and `divide255` for the division of the
decoded mask by 255.0.  The function returns the item dictionary in
insertion order. -/
def getitem {Img Msk T : Type}
    (read_image : String → Img)
    (preprocessImage : Img → T)
    (preprocessWithMask : Img → Msk → T × T)
    (zerosLike : Img → Msk)
    (readMaskFile : String → Msk)
    (divide255 : Msk → Msk)
    (split : String) (task : String) (row : SampleRow) :
    List (String × ItemVal T) :=
  let image := read_image row.image_path
  let item : List (String × ItemVal T) :=
    if split == "train" || task == "classification" then
      [("image", ItemVal.tenVal (preprocessImage image))]
    else []
  if split == "test" then
    let item := dictInsert item "image_path" (ItemVal.strVal row.image_path)
    let item := dictInsert item "label" (ItemVal.intVal row.label_index)
    if task == "segmentation" then
      let mask :=
        if row.label_index == 0 then zerosLike image
        else divide255 (readMaskFile row.mask_path)
      let pre := preprocessWithMask image mask
      let item := dictInsert item "mask_path" (ItemVal.strVal row.mask_path)
      let item := dictInsert item "image" (ItemVal.tenVal pre.1)
      dictInsert item "mask" (ItemVal.tenVal pre.2)
    else item
  else item

/-!
Callback assembler model (`src/anomalib/utils/callbacks/__init__.py`).
The omegaconf configuration tree is embedded as nested structures whose
`Option` fields model optional keys; reading an absent key yields Python
`None` (omegaconf non-struct access), so boolean reads of absent keys are
falsy and iterating or attribute-accessing `None` raises, which the error
cases below record.
-/

/-- The `model.early_stopping` section (metric and mode keys read at
callbacks lines 63-64). -/
structure EarlyStoppingConfig where
  metric : String
  mode : String
deriving DecidableEq, Repr

/-- The `metrics.threshold` section (read at callbacks lines 79-86). -/
structure ThresholdConfig where
  adaptive : Bool
  image_default : Option Int
  pixel_default : Option Int
deriving DecidableEq, Repr

/-- The `metrics` section (read at callbacks lines 77-91). -/
structure MetricsConfig where
  image : Option (List String)
  pixel : Option (List String)
  threshold : ThresholdConfig
deriving DecidableEq, Repr

/-- The `model` section of the configuration. -/
structure ModelConfig where
  name : String
  early_stopping : Option EarlyStoppingConfig
  weight_file : Option String
  normalization_method : Option String
  input_size : Int × Int
deriving DecidableEq, Repr

/-- The `optimization.nncf` section; only the `apply` flag is read here. -/
structure NncfConfig where
  apply : Bool
deriving DecidableEq, Repr

/-- The `optimization.openvino` section; only the `apply` flag is read here. -/
structure OpenvinoConfig where
  apply : Bool
deriving DecidableEq, Repr

/-- The `optimization` section with its optional sub-sections. -/
structure OptimizationConfig where
  nncf : Option NncfConfig
  openvino : Option OpenvinoConfig
deriving DecidableEq, Repr

/-- The `project` section: output path and the deprecated `log_images_to`
key. -/
structure ProjectConfig where
  path : String
  log_images_to : Option (List String)
deriving DecidableEq, Repr

/-- The `logging` section: `log_graph` and the deprecated `log_images_to`
key. -/
structure LoggingConfig where
  log_graph : Option Bool
  log_images_to : Option (List String)
deriving DecidableEq, Repr

/-- The `visualization` section.  `show_image` (without the final s) is the
key written by the deprecated-flag migration at callbacks line 166, while
`show_images` is the key read at lines 171 and 183; both therefore appear. -/
structure VisualizationConfig where
  log_images : Option Bool
  save_images : Option Bool
  show_image : Option Bool
  show_images : Option Bool
  image_save_path : Option String
  mode : Option String
deriving DecidableEq, Repr

/-- The `dataset` section; only `task` is read by the assembler. -/
structure DatasetConfig where
  task : String
deriving DecidableEq, Repr

/-- The configuration tree consumed by `get_callbacks`; `optimization` and
`visualization` are the sections whose absence the code itself probes. -/
structure Config where
  project : ProjectConfig
  model : ModelConfig
  metrics : MetricsConfig
  optimization : Option OptimizationConfig
  logging : LoggingConfig
  visualization : Option VisualizationConfig
  dataset : DatasetConfig
deriving DecidableEq, Repr

/-- Python exceptions `get_callbacks` can raise: `NotImplementedError`,
`ValueError`, `TypeError` (iterating `None`) and `AttributeError`
(attribute access on `None`). -/
inductive CbErr where
  | notImplemented (msg : String)
  | valueError (msg : String)
  | typeError (msg : String)
  | attributeError (msg : String)
deriving DecidableEq, Repr

/-- The training-lifecycle hooks `get_callbacks` assembles, recorded with
the constructor arguments the source passes. -/
inductive Callback where
  | modelCheckpoint (dirpath : String) (filename : String)
      (monitor : Option String) (mode : String)
  | timer
  | metricsConfiguration (adaptive : Bool) (imageThreshold : Option Int)
      (pixelThreshold : Option Int) (imageMetrics : Option (List String))
      (pixelMetrics : Option (List String))
  | loadModel (weightPath : String)
  | cdfNormalization
  | minMaxNormalization
  | visualizer (task : String) (mode : Option String) (imageSavePath : String)
      (inputsAreNormalized : Bool) (showImages : Option Bool)
      (logImages : Option Bool) (saveImages : Option Bool)
  | nncfCompression (exportDir : String)
  | openvino (inputSize : Int × Int) (dirpath : String) (filename : String)
  | graphLogger
deriving DecidableEq, Repr

/-- Truthiness of an optional boolean key: an absent key reads as `None`,
which is falsy. -/
def truthy : Option Bool → Bool
  | some b => b
  | none => false

/-- The check `"nncf" in config.optimization and config.optimization.nncf.apply`
of callbacks lines 101 and 114, given a present optimization section. -/
def nncfApplies (opt : OptimizationConfig) : Bool :=
  match opt.nncf with
  | some n => n.apply
  | none => false

/-- The unconditional callbacks of lines 61-96: checkpoint (with the
early-stopping monitor when configured), timer, metrics configuration, and
the optional model-weights loader.  `os.path.join(a, b)` is embedded as
`a ++ "/" ++ b`. -/
def baseCallbacks (config : Config) : List Callback :=
  let monitor_metric := config.model.early_stopping.map EarlyStoppingConfig.metric
  let monitor_mode :=
    match config.model.early_stopping with
    | none => "max"
    | some es => es.mode
  let checkpoint := Callback.modelCheckpoint (config.project.path ++ "/weights")
    "model" monitor_metric monitor_mode
  let metricsCb := Callback.metricsConfiguration config.metrics.threshold.adaptive
    config.metrics.threshold.image_default config.metrics.threshold.pixel_default
    config.metrics.image config.metrics.pixel
  let loadCbs :=
    match config.model.weight_file with
    | some w => [Callback.loadModel (config.project.path ++ "/" ++ w)]
    | none => []
  [checkpoint, Callback.timer, metricsCb] ++ loadCbs

/-- The score-normalization block of callbacks lines 98-109: CDF
normalization is restricted to padim and stfpm and is incompatible with an
applied NNCF optimization; an unknown method name raises a `ValueError`
naming it.  When the cdf branch probes `"nncf" in config.optimization` with
the optimization key absent, iterating `None` raises a `TypeError`. -/
def normalizationStep (config : Config) : Except CbErr (List Callback) :=
  match config.model.normalization_method with
  | none => Except.ok []
  | some m =>
    if m == "none" then Except.ok []
    else if m == "cdf" then
      if config.model.name == "padim" || config.model.name == "stfpm" then
        match config.optimization with
        | none => Except.error (CbErr.typeError "argument of type NoneType is not iterable")
        | some opt =>
          if nncfApplies opt then
            Except.error (CbErr.notImplemented
              "CDF Score Normalization is currently not compatible with NNCF.")
          else Except.ok [Callback.cdfNormalization]
      else
        Except.error (CbErr.notImplemented
          "Score Normalization is currently supported for PADIM and STFPM only.")
    else if m == "min_max" then Except.ok [Callback.minMaxNormalization]
    else Except.error (CbErr.valueError ("Normalization method not recognized: " ++ m))

/-- The condition `"log_images_to" in section.keys() and
len(section.log_images_to) > 0` of callbacks lines 155-159. -/
def lenPos : Option (List String) → Bool
  | some l => decide (0 < l.length)
  | none => false

/-- The visualization section created by the deprecated-flag migration at
callbacks line 166: `dict(log_images=False, save_images=False,
show_image=False, image_save_path=None)`.  Note the created dict has a
`show_image` key but no `show_images` key and no `mode` key. -/
def createdVisualization : VisualizationConfig :=
  { log_images := some false
    save_images := some false
    show_image := some false
    show_images := none
    image_save_path := none
    mode := none }

/-- The mutation `config.visualization["save_images"] = True` of callbacks
line 168. -/
def setSaveImages (config : Config) : Config :=
  match config.visualization with
  | some v => { config with visualization := some { v with save_images := some true } }
  | none => config

/-- The mutation `config.visualization["log_images"] = True` of callbacks
line 170. -/
def setLogImages (config : Config) : Config :=
  match config.visualization with
  | some v => { config with visualization := some { v with log_images := some true } }
  | none => config

/-- Lines 171-187 of the callbacks module: when any of the visualization
flags is truthy, append the visualizer hook, resolving the image save path
(falling back to `project.path + "/images"` when the configured path is
absent, `None` or empty).  Accessing `config.visualization` when the
section is absent is attribute access on `None` and raises. -/
def visualizerStep (callbacks : List Callback) (config : Config) :
    Except CbErr (List Callback) × Config :=
  match config.visualization with
  | none =>
    (Except.error (CbErr.attributeError "NoneType object has no attribute log_images"),
      config)
  | some vis =>
    if truthy vis.log_images || truthy vis.save_images || truthy vis.show_images then
      let image_save_path :=
        match vis.image_save_path with
        | some s => if s.isEmpty then config.project.path ++ "/images" else s
        | none => config.project.path ++ "/images"
      (Except.ok (callbacks ++ [Callback.visualizer config.dataset.task vis.mode
        image_save_path (!(config.model.normalization_method == some "none"))
        vis.show_images vis.log_images vis.save_images]), config)
    else (Except.ok callbacks, config)

/-- Embedding of `add_visualizer_callback` (callbacks lines 146-187).  The
deprecated `log_images_to` key, when present and non-empty under `project`
or under `logging`, first creates the visualization section if absent and
then migrates the value into the two boolean flags; the migration reads
`config.project.log_images_to` unconditionally, so when that key is absent
(the trigger having come from `logging`) the membership test iterates
`None` and raises a `TypeError`.  The function returns the possibly
extended callback list together with the possibly mutated configuration. -/
def add_visualizer_callback (callbacks : List Callback) (config : Config) :
    Except CbErr (List Callback) × Config :=
  if lenPos config.project.log_images_to || lenPos config.logging.log_images_to then
    let config1 :=
      match config.visualization with
      | none => { config with visualization := some createdVisualization }
      | some _ => config
    match config1.project.log_images_to with
    | none =>
      (Except.error (CbErr.typeError "argument of type NoneType is not iterable"), config1)
    | some l =>
      let config2 := if l.contains "local" then setSaveImages config1 else config1
      let config3 :=
        if !(l.contains "local") || decide (1 < l.length) then setLogImages config2
        else config2
      visualizerStep callbacks config3
  else visualizerStep callbacks config

/-- The optimization hooks of callbacks lines 113-137: NNCF compression and
OpenVINO export, each gated by its nested apply flag. -/
def optimizationCallbacks (config : Config) : List Callback :=
  match config.optimization with
  | none => []
  | some opt =>
    (match opt.nncf with
     | some n =>
       if n.apply then [Callback.nncfCompression (config.project.path ++ "/compressed")]
       else []
     | none => []) ++
    (match opt.openvino with
     | some o =>
       if o.apply then
         [Callback.openvino config.model.input_size (config.project.path ++ "/openvino")
           "openvino_model"]
       else []
     | none => [])

/-- The graph-logging hook of callbacks lines 140-141, added when
`config.logging.log_graph not in [None, False]`. -/
def graphCallbacks (config : Config) : List Callback :=
  match config.logging.log_graph with
  | some true => [Callback.graphLogger]
  | _ => []

/-- Embedding of `get_callbacks` (callbacks lines 50-143).  The result
pairs the assembled hook list (or the first raised error) with the final
state of the configuration object, which `add_visualizer_callback` may have
mutated. -/
def get_callbacks (config : Config) : Except CbErr (List Callback) × Config :=
  match normalizationStep config with
  | Except.error e => (Except.error e, config)
  | Except.ok normCbs =>
    match add_visualizer_callback (baseCallbacks config ++ normCbs) config with
    | (Except.error e, config1) => (Except.error e, config1)
    | (Except.ok cbs, config1) =>
      (Except.ok (cbs ++ optimizationCallbacks config1 ++ graphCallbacks config1), config1)

/-! Properties of the seeded sampling. -/

theorem sampleAux_length :
    ∀ (k : Nat) (state : Nat) (pop : List Nat),
      (sampleAux state k pop).length = min k pop.length := by
  intro k
  induction k with
  | zero => intro state pop; simp [sampleAux]
  | succ k ih =>
    intro state pop
    cases pop with
    | nil => simp [sampleAux]
    | cons x xs =>
      simp only [sampleAux, List.length_cons, ih, List.length_eraseIdx]
      have hlt : state % (x :: xs).length < (x :: xs).length :=
        Nat.mod_lt _ (Nat.succ_pos _)
      simp only [List.length_cons] at hlt
      rw [if_pos hlt]
      omega

theorem sampleAux_subset :
    ∀ (k : Nat) (state : Nat) (pop : List Nat) (x : Nat),
      x ∈ sampleAux state k pop → x ∈ pop := by
  intro k
  induction k with
  | zero => intro state pop x h; simp [sampleAux] at h
  | succ k ih =>
    intro state pop x h
    cases pop with
    | nil => simp [sampleAux] at h
    | cons y ys =>
      simp only [sampleAux, List.mem_cons] at h
      rcases h with h | h
      · rw [h]; exact List.get_mem _ _ _
      · exact (List.eraseIdx_sublist (y :: ys) _).mem (ih _ _ _ h)

theorem sampleAux_nodup :
    ∀ (k : Nat) (state : Nat) (pop : List Nat),
      pop.Nodup → (sampleAux state k pop).Nodup := by
  intro k
  induction k with
  | zero => intro state pop _; simp [sampleAux]
  | succ k ih =>
    intro state pop hnd
    cases pop with
    | nil => simp [sampleAux]
    | cons y ys =>
      simp only [sampleAux]
      rw [List.nodup_cons]
      refine ⟨?_, ih _ _ ((List.eraseIdx_sublist (y :: ys) _).nodup hnd)⟩
      intro hmem
      have h2 := sampleAux_subset _ _ _ _ hmem
      rw [List.mem_eraseIdx_iff_getElem] at h2
      obtain ⟨j, hj, hne, heq⟩ := h2
      rw [List.get_eq_getElem] at heq
      exact hne ((hnd.getElem_inj_iff).mp heq)

theorem randomSample_length (seed : Nat) (pop : List Nat) (k : Nat) :
    (randomSample seed pop k).length = min k pop.length :=
  sampleAux_length k _ pop

theorem randomSample_subset (seed : Nat) (pop : List Nat) (k : Nat) :
    ∀ x ∈ randomSample seed pop k, x ∈ pop :=
  fun x hx => sampleAux_subset k _ pop x hx

theorem randomSample_nodup (seed : Nat) (pop : List Nat) (k : Nat)
    (h : pop.Nodup) : (randomSample seed pop k).Nodup :=
  sampleAux_nodup k _ pop h

/-! Counting helpers. -/

theorem countP_funext {α : Type} (p q : α → Bool) (l : List α)
    (h : ∀ a, p a = q a) : l.countP p = l.countP q := by
  have hpq : p = q := funext h
  rw [hpq]

theorem countP_nat_split (i : Nat) (l : List Nat) :
    l.countP (fun j => decide (i ≤ j))
      = l.countP (fun j => decide (j = i)) + l.countP (fun j => decide (i + 1 ≤ j)) := by
  induction l with
  | nil => simp
  | cons a t ih =>
    simp only [List.countP_cons, ih]
    by_cases h1 : a = i
    · subst h1
      have h2 : ¬ (a + 1 ≤ a) := by omega
      simp [h2]
      omega
    · by_cases h2 : i ≤ a
      · have h3 : i + 1 ≤ a := by omega
        simp [h1, h2, h3]
        omega
      · have h3 : ¬ (i + 1 ≤ a) := by omega
        simp [h1, h2, h3]

theorem countP_eq_mem_ite (i : Nat) (l : List Nat) (hnd : l.Nodup) :
    l.countP (fun j => decide (j = i)) = if i ∈ l then 1 else 0 := by
  induction l with
  | nil => simp
  | cons a t ih =>
    rw [List.nodup_cons] at hnd
    obtain ⟨hat, hnd⟩ := hnd
    rw [List.countP_cons, ih hnd]
    by_cases h1 : a = i
    · subst h1
      have h2 : a ∉ t := hat
      simp [h2]
    · by_cases h2 : i ∈ t
      · have h3 : i ∈ a :: t := List.mem_cons_of_mem a h2
        simp [h1, h2, h3]
      · have h3 : i ∉ a :: t := by
          rw [List.mem_cons]
          rintro (hh | hh)
          · exact h1 hh.symm
          · exact h2 hh
        simp [h1, h2, h3]

theorem countP_le_split (idxs : List Nat) (i : Nat) (hnd : idxs.Nodup) :
    idxs.countP (fun j => decide (i ≤ j))
      = (if i ∈ idxs then 1 else 0) + idxs.countP (fun j => decide (i + 1 ≤ j)) := by
  rw [countP_nat_split, countP_eq_mem_ite i idxs hnd]

theorem reassignAux_countP (idxs : List Nat) (hnd : idxs.Nodup) :
    ∀ (l : List PreRow) (i : Nat),
      (∀ j ∈ idxs, i ≤ j →
        ∃ h : j - i < l.length, isTrainGoodPre (l.get ⟨j - i, h⟩) = true) →
      (reassignAux idxs i l).countP isTestGoodPre
          = l.countP isTestGoodPre + idxs.countP (fun j => decide (i ≤ j))
        ∧ (reassignAux idxs i l).countP isTrainPre + idxs.countP (fun j => decide (i ≤ j))
          = l.countP isTrainPre := by
  intro l
  induction l with
  | nil =>
    intro i hrows
    have hz : idxs.countP (fun j => decide (i ≤ j)) = 0 := by
      rw [List.countP_eq_zero]
      intro j hj
      simp only [decide_eq_true_eq]
      intro hij
      obtain ⟨hlt, _⟩ := hrows j hj hij
      simp at hlt
    simp [reassignAux, hz]
  | cons r rs ih =>
    intro i hrows
    have hrows2 : ∀ j ∈ idxs, i + 1 ≤ j →
        ∃ h : j - (i + 1) < rs.length, isTrainGoodPre (rs.get ⟨j - (i + 1), h⟩) = true := by
      intro j hj hij
      obtain ⟨hlt, hg⟩ := hrows j hj (by omega)
      have hlt2 : j - (i + 1) < rs.length := by
        simp only [List.length_cons] at hlt
        omega
      refine ⟨hlt2, ?_⟩
      have hsucc : j - (i + 1) + 1 < (r :: rs).length := by
        simp only [List.length_cons]
        omega
      have hidx : (⟨j - i, hlt⟩ : Fin (r :: rs).length) = ⟨j - (i + 1) + 1, hsucc⟩ := by
        apply Fin.ext
        simp only
        omega
      rw [hidx, List.get_cons_succ] at hg
      exact hg
    obtain ⟨ih1, ih2⟩ := ih (i + 1) hrows2
    rw [countP_le_split idxs i hnd]
    by_cases hmem : i ∈ idxs
    · obtain ⟨hlt0, hg0⟩ := hrows i hmem (le_refl i)
      have hzero : (⟨i - i, hlt0⟩ : Fin (r :: rs).length)
          = ⟨0, by simp only [List.length_cons]; omega⟩ := by
        apply Fin.ext
        simp only
        omega
      rw [hzero] at hg0
      have hg1 : isTrainGoodPre r = true := hg0
      simp only [isTrainGoodPre, Bool.and_eq_true, beq_iff_eq] at hg1
      obtain ⟨hsp, hlb⟩ := hg1
      have e1 : isTestGoodPre { r with split := "test" } = true := by
        simp [isTestGoodPre, hlb]
      have e2 : isTrainPre { r with split := "test" } = false := by
        simp [isTrainPre]
      have e3 : isTestGoodPre r = false := by
        simp [isTestGoodPre, hsp]
      have e4 : isTrainPre r = true := by
        simp [isTrainPre, hsp]
      simp only [reassignAux, if_pos hmem, List.countP_cons, ih1, ih2, e1, e2, e3, e4]
      constructor <;> simp <;> omega
    · simp only [reassignAux, if_neg hmem, List.countP_cons, ih1, ih2]
      constructor <;> omega

theorem countP_range_any (p : PreRow → Bool) (l : List PreRow) :
    (List.range l.length).countP (fun i => (l.get? i).any p) = l.countP p := by
  induction l with
  | nil => simp
  | cons x xs ih =>
    rw [List.length_cons, List.range_succ_eq_map, List.countP_cons, List.countP_map]
    have hcomp : ((fun i => ((x :: xs).get? i).any p) ∘ Nat.succ)
        = (fun i => (xs.get? i).any p) := by
      funext i
      rfl
    rw [hcomp, ih, List.countP_cons]
    rfl

theorem length_normalTrainIndices (samples : List PreRow) :
    (normalTrainIndices samples).length = samples.countP isTrainGoodPre := by
  unfold normalTrainIndices
  rw [← List.countP_eq_length_filter]
  exact countP_range_any isTrainGoodPre samples

theorem nodup_normalTrainIndices (samples : List PreRow) :
    (normalTrainIndices samples).Nodup :=
  List.Nodup.filter _ (List.nodup_range samples.length)

theorem mem_normalTrainIndices {samples : List PreRow} {i : Nat}
    (h : i ∈ normalTrainIndices samples) :
    ∃ hlt : i < samples.length, isTrainGoodPre (samples.get ⟨i, hlt⟩) = true := by
  unfold normalTrainIndices at h
  rw [List.mem_filter, List.mem_range] at h
  obtain ⟨hlt, hp⟩ := h
  refine ⟨hlt, ?_⟩
  rw [List.get?_eq_get hlt] at hp
  rwa [Option.any_some] at hp

theorem toNat_pyInt_mul_le (n : Nat) (ratio : ℚ) (h1 : ratio ≤ 1) :
    (pyInt ((n : ℚ) * ratio)).toNat ≤ n := by
  unfold pyInt
  split
  · next h =>
    have hle : (n : ℚ) * ratio ≤ (n : ℚ) :=
      mul_le_of_le_one_right (by positivity) h1
    have hfl : ⌊(n : ℚ) * ratio⌋ ≤ (n : ℤ) := by
      calc ⌊(n : ℚ) * ratio⌋ ≤ ⌊(n : ℚ)⌋ := Int.floor_le_floor hle
        _ = (n : ℤ) := Int.floor_natCast n
    omega
  · next h =>
    have hc : ⌈(n : ℚ) * ratio⌉ ≤ 0 := by
      rw [Int.ceil_le]
      push_cast
      linarith
    omega

theorem selectedIndices_nodup (samples : List PreRow) (ratio : ℚ) (seed : Nat) :
    (selectedIndices samples ratio seed).Nodup :=
  randomSample_nodup _ _ _ (nodup_normalTrainIndices samples)

theorem selectedIndices_mem {samples : List PreRow} {ratio : ℚ} {seed : Nat} {j : Nat}
    (h : j ∈ selectedIndices samples ratio seed) :
    ∃ hlt : j < samples.length, isTrainGoodPre (samples.get ⟨j, hlt⟩) = true :=
  mem_normalTrainIndices (randomSample_subset _ _ _ j h)

theorem selectedIndices_length (samples : List PreRow) (ratio : ℚ) (seed : Nat)
    (h1 : ratio ≤ 1) :
    (selectedIndices samples ratio seed).length
      = (pyInt ((samples.countP isTrainGoodPre : ℚ) * ratio)).toNat := by
  unfold selectedIndices
  rw [randomSample_length, length_normalTrainIndices]
  exact Nat.min_eq_left (toNat_pyInt_mul_le _ ratio h1)

theorem split_normal_counts (samples : List PreRow) (ratio : ℚ) (seed : Nat)
    (h1 : ratio ≤ 1) :
    (split_normal_images_in_train_set samples ratio seed).countP isTestGoodPre
        = samples.countP isTestGoodPre
          + (pyInt ((samples.countP isTrainGoodPre : ℚ) * ratio)).toNat
      ∧ (split_normal_images_in_train_set samples ratio seed).countP isTrainPre
          + (pyInt ((samples.countP isTrainGoodPre : ℚ) * ratio)).toNat
        = samples.countP isTrainPre := by
  have hrows : ∀ j ∈ selectedIndices samples ratio seed, 0 ≤ j →
      ∃ h : j - 0 < samples.length, isTrainGoodPre (samples.get ⟨j - 0, h⟩) = true := by
    intro j hj _
    obtain ⟨hlt, hg⟩ := selectedIndices_mem hj
    exact ⟨hlt, hg⟩
  obtain ⟨hc1, hc2⟩ :=
    reassignAux_countP (selectedIndices samples ratio seed)
      (selectedIndices_nodup samples ratio seed) samples 0 hrows
  have hall : (selectedIndices samples ratio seed).countP (fun j => decide (0 ≤ j))
      = (selectedIndices samples ratio seed).length := by
    rw [List.countP_eq_length]
    intro a _
    simp
  rw [hall, selectedIndices_length samples ratio seed h1] at hc1 hc2
  exact ⟨hc1, hc2⟩

/-! Structural lemmas about the table pipeline. -/

theorem mem_reassignAux (idxs : List Nat) :
    ∀ (l : List PreRow) (i : Nat) (r : PreRow), r ∈ reassignAux idxs i l →
      ∃ q ∈ l, r = q ∨ r = { q with split := "test" } := by
  intro l
  induction l with
  | nil =>
    intro i r h
    simp [reassignAux] at h
  | cons x xs ih =>
    intro i r h
    simp only [reassignAux, List.mem_cons] at h
    rcases h with h | h
    · refine ⟨x, List.mem_cons_self x xs, ?_⟩
      by_cases hm : i ∈ idxs
      · rw [if_pos hm] at h
        exact Or.inr h
      · rw [if_neg hm] at h
        exact Or.inl h
    · obtain ⟨q, hq, hor⟩ := ih (i + 1) r h
      exact ⟨q, List.mem_cons_of_mem x hq, hor⟩

theorem mem_mvtecFullTable {raw : List RawRow} {ratio : ℚ} {seed : Nat} {r : Row}
    (h : r ∈ mvtecFullTable raw ratio seed) :
    ∃ p : PreRow, (∃ q ∈ scanPreRows raw, p = q ∨ p = { q with split := "test" })
      ∧ r = addLabelIndex (clearMaskIfTestGood p) := by
  unfold mvtecFullTable at h
  rw [List.mem_map] at h
  obtain ⟨c, hc, hcr⟩ := h
  rw [List.mem_map] at hc
  obtain ⟨p, hp, hpc⟩ := hc
  refine ⟨p, ?_, by rw [← hcr, ← hpc]⟩
  by_cases hcond : ((scanPreRows raw).countP isTestGoodPre == 0) = true
  · rw [if_pos hcond] at hp
    exact mem_reassignAux _ _ _ _ hp
  · rw [if_neg hcond] at hp
    exact ⟨p, hp, Or.inl rfl⟩

theorem mem_scanPreRows {raw : List RawRow} {q : PreRow} (h : q ∈ scanPreRows raw) :
    ∃ a ∈ raw, q = mkPreRow a := by
  unfold scanPreRows at h
  rw [List.mem_map] at h
  obtain ⟨a, ha, hq⟩ := h
  exact ⟨a, (List.mem_filter.mp ha).1, hq.symm⟩

theorem mkPreRow_mask_ne (a : RawRow) : (mkPreRow a).mask_path ≠ "" := by
  intro hcon
  have hlen := congrArg String.length hcon
  simp only [mkPreRow, String.length_append] at hlen
  have h9 : "_mask.png".length = 9 := rfl
  have h0 : ("" : String).length = 0 := rfl
  rw [h9, h0] at hlen
  omega

theorem countP_scanPreRows_testGood (raw : List RawRow)
    (h : raw.countP (fun r => r.split == "test" && r.label == "good") = 0) :
    (scanPreRows raw).countP isTestGoodPre = 0 := by
  unfold scanPreRows
  rw [List.countP_map, List.countP_filter]
  rw [List.countP_eq_zero] at h ⊢
  intro a ha hcon
  apply h a ha
  simp only [Function.comp, isTestGoodPre, mkPreRow, Bool.and_eq_true] at hcon
  simp only [Bool.and_eq_true]
  exact hcon.1

theorem clearMask_split (r : PreRow) : (clearMaskIfTestGood r).split = r.split := by
  unfold clearMaskIfTestGood
  split <;> rfl

theorem clearMask_label (r : PreRow) : (clearMaskIfTestGood r).label = r.label := by
  unfold clearMaskIfTestGood
  split <;> rfl

theorem mvtecFullTable_countP (raw : List RawRow) (ratio : ℚ) (seed : Nat)
    (p : Row → Bool) (q : PreRow → Bool)
    (hpq : ∀ r : PreRow, p (addLabelIndex (clearMaskIfTestGood r)) = q r) :
    (mvtecFullTable raw ratio seed).countP p
      = (if (scanPreRows raw).countP isTestGoodPre == 0 then
          split_normal_images_in_train_set (scanPreRows raw) ratio seed
        else scanPreRows raw).countP q := by
  unfold mvtecFullTable
  rw [List.countP_map, List.countP_map]
  refine countP_funext _ _ _ ?_
  intro r
  simp only [Function.comp]
  exact hpq r

/-! Helper lemmas about the callback assembler. -/

theorem get_callbacks_norm_error (config : Config) (e : CbErr)
    (h : normalizationStep config = Except.error e) :
    (get_callbacks config).1 = Except.error e := by
  unfold get_callbacks
  rw [h]

theorem normalizationStep_cdf_other (config : Config)
    (hm : config.model.normalization_method = some "cdf")
    (h1 : config.model.name ≠ "padim") (h2 : config.model.name ≠ "stfpm") :
    normalizationStep config = Except.error (CbErr.notImplemented
      "Score Normalization is currently supported for PADIM and STFPM only.") := by
  unfold normalizationStep
  rw [hm]
  dsimp only
  have e1 : (config.model.name == "padim") = false := by
    rw [beq_eq_false_iff_ne]
    exact h1
  have e2 : (config.model.name == "stfpm") = false := by
    rw [beq_eq_false_iff_ne]
    exact h2
  rw [e1, e2]
  rfl

theorem normalizationStep_cdf_nncf (config : Config) (opt : OptimizationConfig)
    (n : NncfConfig) (hm : config.model.normalization_method = some "cdf")
    (hname : config.model.name = "padim" ∨ config.model.name = "stfpm")
    (hopt : config.optimization = some opt) (hn : opt.nncf = some n)
    (ha : n.apply = true) :
    normalizationStep config = Except.error (CbErr.notImplemented
      "CDF Score Normalization is currently not compatible with NNCF.") := by
  unfold normalizationStep
  rw [hm]
  dsimp only
  have e1 : (config.model.name == "padim" || config.model.name == "stfpm") = true := by
    rcases hname with h | h <;> rw [h] <;> rfl
  rw [e1, hopt]
  dsimp only
  have e2 : nncfApplies opt = true := by
    unfold nncfApplies
    rw [hn]
    exact ha
  rw [e2]
  rfl

theorem normalizationStep_unknown (config : Config) (m : String)
    (hm : config.model.normalization_method = some m)
    (h1 : m ≠ "none") (h2 : m ≠ "cdf") (h3 : m ≠ "min_max") :
    normalizationStep config = Except.error (CbErr.valueError
      ("Normalization method not recognized: " ++ m)) := by
  unfold normalizationStep
  rw [hm]
  dsimp only
  rw [show (m == "none") = false from beq_eq_false_iff_ne.mpr h1,
    show (m == "cdf") = false from beq_eq_false_iff_ne.mpr h2,
    show (m == "min_max") = false from beq_eq_false_iff_ne.mpr h3]
  rfl

theorem normalizationStep_not_valueError (config : Config)
    (hm : config.model.normalization_method = none
        ∨ config.model.normalization_method = some "none"
        ∨ config.model.normalization_method = some "cdf"
        ∨ config.model.normalization_method = some "min_max") (s : String) :
    normalizationStep config ≠ Except.error (CbErr.valueError s) := by
  intro hcon
  unfold normalizationStep at hcon
  rcases hm with h | h | h | h <;> rw [h] at hcon <;> dsimp only at hcon
  · exact Except.noConfusion hcon
  · exact Except.noConfusion hcon
  · by_cases e1 : (config.model.name == "padim" || config.model.name == "stfpm") = true
    · rw [if_pos e1] at hcon
      cases ho : config.optimization with
      | none =>
        rw [ho] at hcon
        exact CbErr.noConfusion (Except.error.inj hcon)
      | some opt =>
        rw [ho] at hcon
        dsimp only at hcon
        by_cases e2 : nncfApplies opt = true
        · rw [if_pos e2] at hcon
          exact CbErr.noConfusion (Except.error.inj hcon)
        · rw [if_neg e2] at hcon
          exact Except.noConfusion hcon
    · rw [if_neg e1] at hcon
      exact CbErr.noConfusion (Except.error.inj hcon)
  · exact Except.noConfusion hcon

theorem visualizerStep_snd (cbs : List Callback) (config : Config) :
    (visualizerStep cbs config).2 = config := by
  unfold visualizerStep
  cases hv : config.visualization
  · rfl
  · dsimp only
    split
    · rfl
    · rfl

theorem visualizerStep_error (cbs : List Callback) (config : Config) (e : CbErr)
    (h : (visualizerStep cbs config).1 = Except.error e) :
    e = CbErr.attributeError "NoneType object has no attribute log_images" := by
  unfold visualizerStep at h
  cases hv : config.visualization with
  | none =>
    rw [hv] at h
    exact (Except.error.inj h).symm
  | some vis =>
    rw [hv] at h
    dsimp only at h
    split at h
    · exact absurd h (by simp)
    · exact absurd h (by simp)

theorem add_visualizer_error (cbs : List Callback) (config : Config) (e : CbErr)
    (h : (add_visualizer_callback cbs config).1 = Except.error e) :
    e = CbErr.typeError "argument of type NoneType is not iterable"
      ∨ e = CbErr.attributeError "NoneType object has no attribute log_images" := by
  unfold add_visualizer_callback at h
  by_cases htrig : (lenPos config.project.log_images_to
      || lenPos config.logging.log_images_to) = true
  · rw [if_pos htrig] at h
    dsimp only at h
    cases hv : config.visualization with
    | none =>
      rw [hv] at h
      dsimp only at h
      cases hp : config.project.log_images_to with
      | none =>
        rw [hp] at h
        exact Or.inl (Except.error.inj h).symm
      | some l =>
        rw [hp] at h
        dsimp only at h
        exact Or.inr (visualizerStep_error _ _ _ h)
    | some vis =>
      rw [hv] at h
      dsimp only at h
      cases hp : config.project.log_images_to with
      | none =>
        rw [hp] at h
        exact Or.inl (Except.error.inj h).symm
      | some l =>
        rw [hp] at h
        dsimp only at h
        exact Or.inr (visualizerStep_error _ _ _ h)
  · rw [if_neg htrig] at h
    exact Or.inr (visualizerStep_error _ _ _ h)


theorem normalizationStep_none (config : Config)
    (hm : config.model.normalization_method = none
        ∨ config.model.normalization_method = some "none") :
    normalizationStep config = Except.ok [] := by
  unfold normalizationStep
  rcases hm with h | h
  · rw [h]
  · rw [h]
    rfl

theorem add_visualizer_skip (cbs : List Callback) (config : Config)
    (vis : VisualizationConfig) (hv : config.visualization = some vis)
    (hl : vis.log_images = some false) (hs : vis.save_images = some false)
    (hsi : vis.show_images = some false)
    (hp : config.project.log_images_to = none)
    (hg : config.logging.log_images_to = none) :
    add_visualizer_callback cbs config = (Except.ok cbs, config) := by
  unfold add_visualizer_callback
  rw [hp, hg]
  rw [if_neg (by simp [lenPos])]
  unfold visualizerStep
  rw [hv]
  dsimp only
  rw [hl, hs, hsi]
  rfl

theorem get_callbacks_skip (config : Config) (vis : VisualizationConfig)
    (hm : config.model.normalization_method = none
        ∨ config.model.normalization_method = some "none")
    (hv : config.visualization = some vis)
    (hl : vis.log_images = some false) (hs : vis.save_images = some false)
    (hsi : vis.show_images = some false)
    (hp : config.project.log_images_to = none)
    (hg : config.logging.log_images_to = none) :
    get_callbacks config
      = (Except.ok (baseCallbacks config ++ [] ++ optimizationCallbacks config
          ++ graphCallbacks config), config) := by
  unfold get_callbacks
  rw [normalizationStep_none config hm]
  dsimp only
  rw [add_visualizer_skip (baseCallbacks config ++ []) config vis hv hl hs hsi hp hg]

theorem no_norm_in_base (config : Config) :
    Callback.cdfNormalization ∉ baseCallbacks config
      ∧ Callback.minMaxNormalization ∉ baseCallbacks config := by
  unfold baseCallbacks
  cases config.model.early_stopping <;> cases config.model.weight_file <;>
    dsimp only <;> simp

theorem no_norm_in_opt (config : Config) :
    Callback.cdfNormalization ∉ optimizationCallbacks config
      ∧ Callback.minMaxNormalization ∉ optimizationCallbacks config := by
  unfold optimizationCallbacks
  cases config.optimization with
  | none => simp
  | some opt =>
    dsimp only
    cases opt.nncf with
    | none =>
      cases opt.openvino with
      | none => simp
      | some o =>
        dsimp only
        split <;> simp
    | some n =>
      cases opt.openvino with
      | none =>
        dsimp only
        split <;> simp
      | some o =>
        dsimp only
        split <;> split <;> simp

theorem no_norm_in_graph (config : Config) :
    Callback.cdfNormalization ∉ graphCallbacks config
      ∧ Callback.minMaxNormalization ∉ graphCallbacks config := by
  unfold graphCallbacks
  cases config.logging.log_graph with
  | none => simp
  | some b => cases b <;> simp


theorem setSave_eq (c1 : Config) (v1 : VisualizationConfig)
    (hv1 : c1.visualization = some v1) :
    setSaveImages c1
      = { c1 with visualization := some { v1 with save_images := some true } } := by
  unfold setSaveImages
  rw [hv1]

theorem setLog_eq (c1 : Config) (v1 : VisualizationConfig)
    (hv1 : c1.visualization = some v1) :
    setLogImages c1
      = { c1 with visualization := some { v1 with log_images := some true } } := by
  unfold setLogImages
  rw [hv1]

theorem migrate_exists (c1 : Config) (v1 : VisualizationConfig)
    (hv1 : c1.visualization = some v1) (l : List String) :
    ∃ v, (if (!(l.contains "local") || decide (1 < l.length)) = true
            then setLogImages (if (l.contains "local") = true then setSaveImages c1 else c1)
            else if (l.contains "local") = true then setSaveImages c1
            else c1).visualization
        = some v
      ∧ (l.contains "local" = true → v.save_images = some true)
      ∧ (l.contains "local" = false ∨ 1 < l.length → v.log_images = some true)
      ∧ (l ≠ [] → v.save_images = some true ∨ v.log_images = some true) := by
  by_cases hc : (l.contains "local") = true
  · by_cases hlen : 1 < l.length
    · have hc2 : (!(l.contains "local") || decide (1 < l.length)) = true := by
        rw [hc, decide_eq_true hlen]
        rfl
      rw [if_pos hc2, if_pos hc, setSave_eq c1 v1 hv1,
        setLog_eq _ { v1 with save_images := some true } rfl]
      refine ⟨{ { v1 with save_images := some true } with log_images := some true },
        rfl, fun _ => rfl, fun _ => rfl, fun _ => Or.inl rfl⟩
    · have hc2 : (!(l.contains "local") || decide (1 < l.length)) = false := by
        rw [hc, decide_eq_false hlen]
        rfl
      rw [if_neg (by rw [hc2]; exact Bool.false_ne_true), if_pos hc,
        setSave_eq c1 v1 hv1]
      refine ⟨{ v1 with save_images := some true }, rfl, fun _ => rfl, ?_,
        fun _ => Or.inl rfl⟩
      rintro (habs | habs)
      · rw [hc] at habs
        cases habs
      · exact absurd habs hlen
  · have hcf : (l.contains "local") = false := by
      cases hcc : l.contains "local"
      · rfl
      · exact absurd hcc hc
    have hc2 : (!(l.contains "local") || decide (1 < l.length)) = true := by
      rw [hcf]
      rfl
    rw [if_pos hc2, if_neg hc, setLog_eq c1 v1 hv1]
    exact ⟨{ v1 with log_images := some true }, rfl, fun habs => absurd habs hc,
      fun _ => rfl, fun _ => Or.inr rfl⟩


/-!
Claim theorems.
-/

/-- C1 counterexample: the claim asserts the post-processed test split
contains the ceiling of split_ratio times the number of normal training
rows.  With one normal training row and split_ratio 1/10 the code computes
int(1 * 0.1) = 0 (truncation) and moves nothing, while the ceiling is 1:
the returned test table is empty. -/
theorem C1_counterexample :
    make_mvtec_dataset "c1" [⟨"c1", "train", "good", "9.png"⟩] "test" (1 / 10) 0
        = Except.ok ([] : List Row)
      ∧ (⌈(1 : ℚ) / 10 * 1⌉ : Int) = 1 := by
  constructor
  · with_unfolding_all rfl
  · with_unfolding_all rfl

/-- C1 (amended): when the raw scan yields zero test/good rows and
0 ≤ split_ratio ≤ 1, the test split of the constructed index contains
exactly int(split_ratio * number of normal training rows) normal rows —
Python int truncation, not the ceiling — and the training split loses
exactly that many rows. -/
theorem C1_truncated_split (path : String) (scan : List RawRow) (ratio : ℚ) (seed : Nat)
    (h0 : scan.countP (fun r => r.split == "test" && r.label == "good") = 0)
    (_hr0 : 0 ≤ ratio) (hr1 : ratio ≤ 1) (hne : scan ≠ []) :
    ∃ testT trainT : List Row,
      make_mvtec_dataset path scan "test" ratio seed = Except.ok testT
        ∧ make_mvtec_dataset path scan "train" ratio seed = Except.ok trainT
        ∧ testT.countP (fun r => r.label == "good")
          = (pyInt (((scanPreRows scan).countP isTrainGoodPre : ℚ) * ratio)).toNat
        ∧ trainT.length
            + (pyInt (((scanPreRows scan).countP isTrainGoodPre : ℚ) * ratio)).toNat
          = (scanPreRows scan).countP isTrainPre := by
  have hc : ¬ ((scan.length == 0) = true) := by
    rw [beq_iff_eq]
    exact fun hcon => hne (List.length_eq_zero.mp hcon)
  have hpre0 : (scanPreRows scan).countP isTestGoodPre = 0 :=
    countP_scanPreRows_testGood scan h0
  have hif : (((scanPreRows scan).countP isTestGoodPre == 0)) = true := by
    rw [hpre0]
    rfl
  obtain ⟨hs1, hs2⟩ := split_normal_counts (scanPreRows scan) ratio seed hr1
  refine ⟨(mvtecFullTable scan ratio seed).filter (fun r => r.split == "test"),
          (mvtecFullTable scan ratio seed).filter (fun r => r.split == "train"),
          ?_, ?_, ?_, ?_⟩
  · unfold make_mvtec_dataset
    rw [if_neg hc]
  · unfold make_mvtec_dataset
    rw [if_neg hc]
  · rw [List.countP_filter]
    have hpq : ∀ r : PreRow,
        (((addLabelIndex (clearMaskIfTestGood r)).label == "good")
          && ((addLabelIndex (clearMaskIfTestGood r)).split == "test")) = isTestGoodPre r := by
      intro r
      simp only [addLabelIndex, clearMask_label, clearMask_split, isTestGoodPre]
      rw [Bool.and_comm]
    rw [mvtecFullTable_countP scan ratio seed _ isTestGoodPre hpq, if_pos hif, hs1, hpre0]
    omega
  · rw [← List.countP_eq_length_filter]
    have hpq : ∀ r : PreRow,
        ((addLabelIndex (clearMaskIfTestGood r)).split == "train") = isTrainPre r := by
      intro r
      simp only [addLabelIndex, clearMask_split, isTrainPre]
    rw [mvtecFullTable_countP scan ratio seed _ isTrainPre hpq, if_pos hif]
    exact hs2

/-- C1 witness: the amended theorem applied to a scan with two normal
training rows and one anomalous test row under split_ratio 1/2 and seed 0,
where int(2 * 1/2) = 1 row moves from train to test. -/
theorem C1_witness :
    ((0 : ℚ) ≤ 1 / 2 ∧ (1 : ℚ) / 2 ≤ 1
      ∧ ([⟨"w1", "train", "good", "a.png"⟩, ⟨"w1", "train", "good", "b.png"⟩,
          ⟨"w1", "test", "broken", "c.png"⟩] : List RawRow).countP
          (fun r => r.split == "test" && r.label == "good") = 0)
      ∧ ∃ testT trainT : List Row,
        make_mvtec_dataset "w1"
            [⟨"w1", "train", "good", "a.png"⟩, ⟨"w1", "train", "good", "b.png"⟩,
             ⟨"w1", "test", "broken", "c.png"⟩] "test" (1 / 2) 0 = Except.ok testT
          ∧ make_mvtec_dataset "w1"
              [⟨"w1", "train", "good", "a.png"⟩, ⟨"w1", "train", "good", "b.png"⟩,
               ⟨"w1", "test", "broken", "c.png"⟩] "train" (1 / 2) 0 = Except.ok trainT
          ∧ testT.countP (fun r => r.label == "good")
            = (pyInt (((scanPreRows
                [⟨"w1", "train", "good", "a.png"⟩, ⟨"w1", "train", "good", "b.png"⟩,
                 ⟨"w1", "test", "broken", "c.png"⟩]).countP isTrainGoodPre : ℚ)
                  * (1 / 2))).toNat
          ∧ trainT.length
              + (pyInt (((scanPreRows
                  [⟨"w1", "train", "good", "a.png"⟩, ⟨"w1", "train", "good", "b.png"⟩,
                   ⟨"w1", "test", "broken", "c.png"⟩]).countP isTrainGoodPre : ℚ)
                    * (1 / 2))).toNat
            = (scanPreRows
                [⟨"w1", "train", "good", "a.png"⟩, ⟨"w1", "train", "good", "b.png"⟩,
                 ⟨"w1", "test", "broken", "c.png"⟩]).countP isTrainPre :=
  ⟨⟨by norm_num, by norm_num, by rfl⟩,
    C1_truncated_split "w1"
      [⟨"w1", "train", "good", "a.png"⟩, ⟨"w1", "train", "good", "b.png"⟩,
       ⟨"w1", "test", "broken", "c.png"⟩] (1 / 2) 0 (by rfl) (by norm_num) (by norm_num)
      (List.cons_ne_nil _ _)⟩

/-- C2 counterexample: the claim asserts every scan with at least one image
yields a full table with at least one test row of label_index 0 for any
split_ratio and seed.  A scan with a single train/good image and
split_ratio 1/10 moves int(1 * 0.1) = 0 rows, so the full table has no
test row at all. -/
theorem C2_counterexample :
    ([⟨"c2", "train", "good", "6.png"⟩] : List RawRow).length = 1
      ∧ (mvtecFullTable [⟨"c2", "train", "good", "6.png"⟩] (1 / 10) 0).countP
          (fun r => r.split == "test" && r.label_index == 0) = 0 := by
  constructor
  · rfl
  · with_unfolding_all rfl

/-- C2 (amended): the full samples table contains at least one test row
with label_index 0 provided the raw scan already yields a test/good row,
or int(split_ratio * number of normal training rows) is at least 1 (with
0 ≤ split_ratio ≤ 1); the guarantee fails when that truncation is 0. -/
theorem C2_test_normal_presence (scan : List RawRow) (ratio : ℚ) (seed : Nat)
    (_hr0 : 0 ≤ ratio) (hr1 : ratio ≤ 1)
    (hk : 1 ≤ (scanPreRows scan).countP isTestGoodPre
        ∨ 1 ≤ pyInt (((scanPreRows scan).countP isTrainGoodPre : ℚ) * ratio)) :
    1 ≤ (mvtecFullTable scan ratio seed).countP
        (fun r => r.split == "test" && r.label_index == 0) := by
  have hpq : ∀ r : PreRow,
      (((addLabelIndex (clearMaskIfTestGood r)).split == "test")
        && ((addLabelIndex (clearMaskIfTestGood r)).label_index == 0)) = isTestGoodPre r := by
    intro r
    simp only [addLabelIndex, clearMask_label, clearMask_split, isTestGoodPre]
    by_cases hlab : (r.label == "good") = true
    · rw [if_pos hlab, hlab]
      rfl
    · rw [if_neg hlab]
      have hlab2 : (r.label == "good") = false := by
        cases hbe : (r.label == "good") with
        | true => exact absurd hbe hlab
        | false => rfl
      rw [hlab2]
      rfl
  rw [mvtecFullTable_countP scan ratio seed _ isTestGoodPre hpq]
  by_cases hcond : (((scanPreRows scan).countP isTestGoodPre == 0)) = true
  · rw [if_pos hcond]
    rw [beq_iff_eq] at hcond
    rcases hk with hk | hk
    · omega
    · obtain ⟨hs1, _⟩ := split_normal_counts (scanPreRows scan) ratio seed hr1
      rw [hs1, hcond]
      omega
  · rw [if_neg hcond]
    rw [beq_iff_eq] at hcond
    omega

/-- C2 witness: the amended theorem applied to a scan with two normal
training images under split_ratio 1/2 and seed 3, where int(2 * 1/2) = 1
row is reassigned to the test split. -/
theorem C2_witness :
    1 ≤ pyInt (((scanPreRows [⟨"w2", "train", "good", "a.png"⟩,
        ⟨"w2", "train", "good", "b.png"⟩]).countP isTrainGoodPre : ℚ) * (1 / 2))
      ∧ 1 ≤ (mvtecFullTable [⟨"w2", "train", "good", "a.png"⟩,
          ⟨"w2", "train", "good", "b.png"⟩] (1 / 2) 3).countP
          (fun r => r.split == "test" && r.label_index == 0) :=
  ⟨by with_unfolding_all decide,
    C2_test_normal_presence
      [⟨"w2", "train", "good", "a.png"⟩, ⟨"w2", "train", "good", "b.png"⟩] (1 / 2) 3
      (by norm_num) (by norm_num) (Or.inr (by with_unfolding_all decide))⟩

/-- C3 counterexample: the claim asserts that any category directory with
at least one image yields a non-empty table for the requested split.  A
scan holding exactly one image, in train/good, requested with split "test",
raises no error yet returns the empty table: the single normal training
row is not moved because int(1 * 0.1) = 0. -/
theorem C3_counterexample :
    ([⟨"c3", "train", "good", "7.png"⟩] : List RawRow).length = 1
      ∧ make_mvtec_dataset "c3" [⟨"c3", "train", "good", "7.png"⟩] "test" (1 / 10) 0
        = Except.ok ([] : List Row) := by
  constructor
  · rfl
  · with_unfolding_all rfl

/-- C3 (amended): for 0 ≤ split_ratio ≤ 1 (outside that range CPython's
random.sample raises a ValueError the embedding does not model),
make_mvtec_dataset raises the fatal "no images found" error exactly when
the directory scan finds zero image files; for a scan with at least one
image it returns a table for the requested split without error, but that
table may be empty. -/
theorem C3_error_iff_empty_scan (path : String) (scan : List RawRow) (split : String)
    (ratio : ℚ) (seed : Nat) (_hr0 : 0 ≤ ratio) (_hr1 : ratio ≤ 1) :
    (make_mvtec_dataset path scan split ratio seed
        = Except.error ("Found 0 images in " ++ path) ↔ scan = [])
      ∧ (scan ≠ [] →
          ∃ t, make_mvtec_dataset path scan split ratio seed = Except.ok t) := by
  unfold make_mvtec_dataset
  constructor
  · constructor
    · intro h
      by_cases hc : (scan.length == 0) = true
      · exact List.length_eq_zero.mp (beq_iff_eq.mp hc)
      · rw [if_neg (by simp [hc])] at h
        cases h
    · intro h
      subst h
      simp
  · intro hne
    have hc : scan.length ≠ 0 := fun hcon => hne (List.length_eq_zero.mp hcon)
    rw [if_neg (by simp [hc])]
    exact ⟨_, rfl⟩

/-- C3 witness: the amended theorem applied at a concrete one-image scan
with split_ratio 1/10. -/
theorem C3_witness :
    ((0 : ℚ) ≤ 1 / 10 ∧ (1 : ℚ) / 10 ≤ 1
      ∧ ([⟨"w3", "train", "good", "1.png"⟩] : List RawRow) ≠ [])
      ∧ ∃ t, make_mvtec_dataset "w3" [⟨"w3", "train", "good", "1.png"⟩] "train" (1 / 10) 0
          = Except.ok t :=
  ⟨⟨by norm_num, by norm_num, List.cons_ne_nil _ _⟩,
    (C3_error_iff_empty_scan "w3" [⟨"w3", "train", "good", "1.png"⟩] "train" (1 / 10) 0
      (by norm_num) (by norm_num)).2 (List.cons_ne_nil _ _)⟩

/-- C4: in every row of a table returned by make_mvtec_dataset (any inputs,
any split), label_index is 0 exactly when the label is "good", and
label_index is either 0 or 1. -/
theorem C4_label_index (path : String) (scan : List RawRow) (split : String)
    (ratio : ℚ) (seed : Nat) (t : List Row)
    (ht : make_mvtec_dataset path scan split ratio seed = Except.ok t)
    (r : Row) (hr : r ∈ t) :
    (r.label_index = 0 ↔ r.label = "good") ∧ (r.label_index = 0 ∨ r.label_index = 1) := by
  unfold make_mvtec_dataset at ht
  by_cases hc : (scan.length == 0) = true
  · rw [if_pos hc] at ht
    cases ht
  · rw [if_neg hc] at ht
    injection ht with ht
    subst ht
    have hr2 := (List.mem_filter.mp hr).1
    obtain ⟨p, _, hrp⟩ := mem_mvtecFullTable hr2
    subst hrp
    simp only [addLabelIndex]
    by_cases hlab : ((clearMaskIfTestGood p).label == "good") = true
    · rw [if_pos hlab]
      simp only [beq_iff_eq] at hlab
      simp [hlab]
    · rw [if_neg hlab]
      simp only [beq_iff_eq] at hlab
      simp [hlab]

/-- C4 witness: the theorem applied to the concrete one-row table of a
one-image scan, certifying its single row. -/
theorem C4_witness :
    make_mvtec_dataset "w4" [⟨"w4", "train", "good", "2.png"⟩] "train" (1 / 10) 0
      = Except.ok [⟨"w4", "train", "good", "w4/train/good/2.png",
          "w4/ground_truth/good/2_mask.png", 0⟩]
      ∧ (((⟨"w4", "train", "good", "w4/train/good/2.png",
            "w4/ground_truth/good/2_mask.png", 0⟩ : Row).label_index = 0
          ↔ (⟨"w4", "train", "good", "w4/train/good/2.png",
              "w4/ground_truth/good/2_mask.png", 0⟩ : Row).label = "good")
        ∧ ((⟨"w4", "train", "good", "w4/train/good/2.png",
            "w4/ground_truth/good/2_mask.png", 0⟩ : Row).label_index = 0
          ∨ (⟨"w4", "train", "good", "w4/train/good/2.png",
              "w4/ground_truth/good/2_mask.png", 0⟩ : Row).label_index = 1)) :=
  ⟨by with_unfolding_all rfl,
    C4_label_index "w4" [⟨"w4", "train", "good", "2.png"⟩] "train" (1 / 10) 0
      [⟨"w4", "train", "good", "w4/train/good/2.png", "w4/ground_truth/good/2_mask.png", 0⟩]
      (by with_unfolding_all rfl) _ (List.mem_singleton.mpr rfl)⟩

/-- C5: in every row of a table produced by make_mvtec_dataset, the mask
path is the empty string exactly when the row is a normal (label_index 0)
test row; anomalous test rows keep their non-empty constructed mask path,
and reassigned normal test rows have theirs cleared. -/
theorem C5_mask_path (path : String) (scan : List RawRow) (split : String)
    (ratio : ℚ) (seed : Nat) (t : List Row)
    (ht : make_mvtec_dataset path scan split ratio seed = Except.ok t)
    (r : Row) (hr : r ∈ t) :
    r.mask_path = "" ↔ (r.label_index = 0 ∧ r.split = "test") := by
  unfold make_mvtec_dataset at ht
  by_cases hc : (scan.length == 0) = true
  · rw [if_pos hc] at ht
    cases ht
  · rw [if_neg hc] at ht
    injection ht with ht
    subst ht
    have hr2 := (List.mem_filter.mp hr).1
    obtain ⟨p, ⟨q, hq, hpq⟩, hrp⟩ := mem_mvtecFullTable hr2
    obtain ⟨a, _, hqa⟩ := mem_scanPreRows hq
    have hmask : p.mask_path ≠ "" := by
      have hqm : q.mask_path ≠ "" := by
        rw [hqa]
        exact mkPreRow_mask_ne a
      rcases hpq with h | h <;> rw [h] <;> exact hqm
    subst hrp
    by_cases hcond : (p.split == "test" && p.label == "good") = true
    · have hclear : clearMaskIfTestGood p = { p with mask_path := "" } := by
        unfold clearMaskIfTestGood
        rw [if_pos hcond]
      rw [hclear]
      simp only [Bool.and_eq_true, beq_iff_eq] at hcond
      simp [addLabelIndex, hcond.1, hcond.2]
    · have hclear : clearMaskIfTestGood p = p := by
        unfold clearMaskIfTestGood
        rw [if_neg hcond]
      rw [hclear]
      simp only [Bool.and_eq_true, beq_iff_eq, not_and] at hcond
      simp only [addLabelIndex]
      constructor
      · intro hm
        exact absurd hm hmask
      · rintro ⟨h0, hsp⟩
        exfalso
        by_cases hlab : (p.label == "good") = true
        · exact hcond hsp (beq_iff_eq.mp hlab)
        · rw [if_neg hlab] at h0
          cases h0

/-- C5 witness: the theorem applied to the concrete test table of a scan
with two normal training images and one anomalous test image under a half
split ratio, certifying the reassigned normal test row whose mask path was
cleared. -/
theorem C5_witness :
    make_mvtec_dataset "w5"
        [⟨"w5", "train", "good", "3.png"⟩, ⟨"w5", "train", "good", "8.png"⟩,
         ⟨"w5", "test", "broken", "4.png"⟩] "test" (1 / 2) 0
      = Except.ok
          [⟨"w5", "test", "good", "w5/train/good/3.png", "", 0⟩,
           ⟨"w5", "test", "broken", "w5/test/broken/4.png",
             "w5/ground_truth/broken/4_mask.png", 1⟩]
      ∧ ((⟨"w5", "test", "good", "w5/train/good/3.png", "", 0⟩ : Row).mask_path = ""
          ↔ ((⟨"w5", "test", "good", "w5/train/good/3.png", "", 0⟩ : Row).label_index = 0
            ∧ (⟨"w5", "test", "good", "w5/train/good/3.png", "", 0⟩ : Row).split = "test")) :=
  ⟨by with_unfolding_all rfl,
    C5_mask_path "w5"
      [⟨"w5", "train", "good", "3.png"⟩, ⟨"w5", "train", "good", "8.png"⟩,
       ⟨"w5", "test", "broken", "4.png"⟩] "test" (1 / 2) 0
      [⟨"w5", "test", "good", "w5/train/good/3.png", "", 0⟩,
       ⟨"w5", "test", "broken", "w5/test/broken/4.png",
         "w5/ground_truth/broken/4_mask.png", 1⟩]
      (by with_unfolding_all rfl) _ (by simp)⟩

/-- C6: split_normal_images_in_train_set is deterministic: equal input
tables, split ratios and seeds yield the identical selected index set and
equal output tables.  The Python global generator state that random.seed
resets at the top of the function is explicit in this embedding, so the
reassignment is a pure function of its three arguments. -/
theorem C6_determinism (s1 s2 : List PreRow) (r1 r2 : ℚ) (d1 d2 : Nat)
    (hs : s1 = s2) (hr : r1 = r2) (hd : d1 = d2) :
    selectedIndices s1 r1 d1 = selectedIndices s2 r2 d2
      ∧ split_normal_images_in_train_set s1 r1 d1
        = split_normal_images_in_train_set s2 r2 d2 := by
  subst hs
  subst hr
  subst hd
  exact ⟨rfl, rfl⟩

/-- C6 witness: the determinism theorem applied at a concrete table, ratio
and seed. -/
theorem C6_witness :
    selectedIndices [⟨"w6", "train", "good", "w6/train/good/5.png",
        "w6/ground_truth/good/5_mask.png"⟩] (1 / 2) 7
      = selectedIndices [⟨"w6", "train", "good", "w6/train/good/5.png",
          "w6/ground_truth/good/5_mask.png"⟩] (1 / 2) 7
      ∧ split_normal_images_in_train_set [⟨"w6", "train", "good", "w6/train/good/5.png",
          "w6/ground_truth/good/5_mask.png"⟩] (1 / 2) 7
        = split_normal_images_in_train_set [⟨"w6", "train", "good", "w6/train/good/5.png",
            "w6/ground_truth/good/5_mask.png"⟩] (1 / 2) 7 :=
  C6_determinism _ _ _ _ _ _ rfl rfl rfl


/-- C9 counterexample: the claim asserts the accessor returns exactly the
key "image" whenever the split is "train" or the task is "classification".
For a test-split classification row the code first builds the image entry
and then adds image_path and label (mvtec.py lines 280-288), so the keys
are image, image_path and label — exactly what the class docstring at line
203 shows. -/
theorem C9_counterexample :
    (@getitem Unit Unit Unit (fun _ => ()) (fun _ => ()) (fun _ _ => ((), ()))
        (fun _ => ()) (fun _ => ()) (fun m => m) "test" "classification"
        ⟨"a.png", "m.png", 0⟩).map Prod.fst = ["image", "image_path", "label"]
      ∧ ["image", "image_path", "label"] ≠ ["image"] := by
  exact ⟨rfl, by decide⟩

/-- C9 (amended): the item returned by the sample accessor has exactly the
key "image" for a training-split row (any task); exactly the keys image,
image_path and label for a test-split classification row; and exactly the
keys image_path, label, mask_path, image and mask for a test-split
segmentation row. -/
theorem C9_item_keys {Img Msk T : Type}
    (read_image : String → Img) (preprocessImage : Img → T)
    (preprocessWithMask : Img → Msk → T × T) (zerosLike : Img → Msk)
    (readMaskFile : String → Msk) (divide255 : Msk → Msk)
    (split : String) (task : String) (row : SampleRow) :
    (split = "train" →
      (getitem read_image preprocessImage preprocessWithMask zerosLike readMaskFile
        divide255 split task row).map Prod.fst = ["image"])
    ∧ (split = "test" → task = "classification" →
      (getitem read_image preprocessImage preprocessWithMask zerosLike readMaskFile
        divide255 split task row).map Prod.fst = ["image", "image_path", "label"])
    ∧ (split = "test" → task = "segmentation" →
      (getitem read_image preprocessImage preprocessWithMask zerosLike readMaskFile
        divide255 split task row).map Prod.fst
        = ["image_path", "label", "mask_path", "image", "mask"]) := by
  refine ⟨?_, ?_, ?_⟩
  · intro h1
    subst h1
    rfl
  · intro h1 h2
    subst h1
    subst h2
    rfl
  · intro h1 h2
    subst h1
    subst h2
    rfl

/-- C9 witness: the amended theorem applied with trivial tensor types at a
training segmentation row and at a test segmentation row. -/
theorem C9_witness :
    (@getitem Unit Unit Unit (fun _ => ()) (fun _ => ()) (fun _ _ => ((), ()))
        (fun _ => ()) (fun _ => ()) (fun m => m) "train" "segmentation"
        ⟨"a.png", "m.png", 1⟩).map Prod.fst = ["image"]
      ∧ (@getitem Unit Unit Unit (fun _ => ()) (fun _ => ()) (fun _ _ => ((), ()))
          (fun _ => ()) (fun _ => ()) (fun m => m) "test" "segmentation"
          ⟨"a.png", "m.png", 1⟩).map Prod.fst
        = ["image_path", "label", "mask_path", "image", "mask"] :=
  ⟨(C9_item_keys (fun _ => ()) (fun _ => ()) (fun _ _ => ((), ())) (fun _ => ())
      (fun _ => ()) (fun m => m) "train" "segmentation" ⟨"a.png", "m.png", 1⟩).1 rfl,
    (C9_item_keys (fun _ => ()) (fun _ => ()) (fun _ _ => ((), ())) (fun _ => ())
      (fun _ => ()) (fun m => m) "test" "segmentation" ⟨"a.png", "m.png", 1⟩).2.2 rfl rfl⟩


/-- Configuration with CDF normalization on a padim model, no NNCF, and
visualization flags all off: the compatible combination of claim C7. -/
def cdfPadimConfig : Config :=
  { project := { path := "results", log_images_to := none }
    model := { name := "padim", early_stopping := none, weight_file := none,
               normalization_method := some "cdf", input_size := (256, 256) }
    metrics := { image := none, pixel := none,
                 threshold := { adaptive := true, image_default := none,
                                pixel_default := none } }
    optimization := some { nncf := none, openvino := none }
    logging := { log_graph := none, log_images_to := none }
    visualization := some { log_images := some false, save_images := some false,
                            show_image := none, show_images := some false,
                            image_save_path := none, mode := some "full" }
    dataset := { task := "segmentation" } }

/-- The callback list get_callbacks assembles for cdfPadimConfig. -/
def cdfPadimCallbackList : List Callback :=
  [Callback.modelCheckpoint "results/weights" "model" none "max", Callback.timer,
   Callback.metricsConfiguration true none none none none, Callback.cdfNormalization]

/-- The same configuration with model name resnet: the incompatible model
family of claim C7. -/
def cdfResnetConfig : Config :=
  { cdfPadimConfig with
    model := { name := "resnet", early_stopping := none, weight_file := none,
               normalization_method := some "cdf", input_size := (256, 256) } }

/-- The padim CDF configuration with NNCF optimization applied: the
incompatible optimization of claim C7. -/
def cdfNncfConfig : Config :=
  { cdfPadimConfig with
    optimization := some { nncf := some { apply := true }, openvino := none } }

/-- C7: with normalization_method "cdf", get_callbacks raises the
not-implemented error naming PADIM and STFPM for every configuration whose
model name is neither "padim" nor "stfpm"; raises the CDF/NNCF
not-implemented error for every configuration with a supported model name
and the nncf apply flag set; and succeeds on the concrete padim
configuration without NNCF, with the CDF normalization hook in the
returned list. -/
theorem C7_cdf_normalization_rules :
    (∀ config : Config, config.model.normalization_method = some "cdf" →
      config.model.name ≠ "padim" → config.model.name ≠ "stfpm" →
      (get_callbacks config).1 = Except.error (CbErr.notImplemented
        "Score Normalization is currently supported for PADIM and STFPM only."))
    ∧ (∀ (config : Config) (opt : OptimizationConfig) (n : NncfConfig),
      config.model.normalization_method = some "cdf" →
      (config.model.name = "padim" ∨ config.model.name = "stfpm") →
      config.optimization = some opt → opt.nncf = some n → n.apply = true →
      (get_callbacks config).1 = Except.error (CbErr.notImplemented
        "CDF Score Normalization is currently not compatible with NNCF."))
    ∧ ((get_callbacks cdfPadimConfig).1 = Except.ok cdfPadimCallbackList
      ∧ Callback.cdfNormalization ∈ cdfPadimCallbackList) := by
  refine ⟨?_, ?_, ?_, ?_⟩
  · intro config hm h1 h2
    exact get_callbacks_norm_error config _ (normalizationStep_cdf_other config hm h1 h2)
  · intro config opt n hm hname hopt hn ha
    exact get_callbacks_norm_error config _
      (normalizationStep_cdf_nncf config opt n hm hname hopt hn ha)
  · rfl
  · decide

/-- C7 witness: the theorem applied at the concrete resnet configuration
and at the concrete padim-with-NNCF configuration. -/
theorem C7_witness :
    (get_callbacks cdfResnetConfig).1 = Except.error (CbErr.notImplemented
        "Score Normalization is currently supported for PADIM and STFPM only.")
      ∧ (get_callbacks cdfNncfConfig).1 = Except.error (CbErr.notImplemented
        "CDF Score Normalization is currently not compatible with NNCF.") :=
  ⟨C7_cdf_normalization_rules.1 cdfResnetConfig rfl (by decide) (by decide),
    C7_cdf_normalization_rules.2.1 cdfNncfConfig
      { nncf := some { apply := true }, openvino := none } { apply := true }
      rfl (Or.inl rfl) rfl rfl rfl⟩


/-- Configuration with normalization_method "none", no deprecated
log_images_to keys, and no visualization section: the input on which the
assembly as a whole still raises (attribute access on the absent
visualization section), refuting the blanket "no error is raised" clause
of claim C8. -/
def c8Config : Config :=
  { project := { path := "proj8", log_images_to := none }
    model := { name := "padim", early_stopping := none, weight_file := none,
               normalization_method := some "none", input_size := (128, 128) }
    metrics := { image := none, pixel := none,
                 threshold := { adaptive := true, image_default := none,
                                pixel_default := none } }
    optimization := none
    logging := { log_graph := none, log_images_to := none }
    visualization := none
    dataset := { task := "classification" } }

/-- The visualization section with all flags off used by the C8 witness. -/
def c8OffVisualization : VisualizationConfig :=
  { log_images := some false, save_images := some false, show_image := none,
    show_images := some false, image_save_path := none, mode := some "full" }

/-- The c8Config with the all-off visualization section present, so that
assembly succeeds. -/
def c8SkipConfig : Config :=
  { c8Config with visualization := some c8OffVisualization }

/-- The c8SkipConfig with the unrecognized normalization method "zscore". -/
def c8UnknownConfig : Config :=
  { c8SkipConfig with
    model := { name := "padim", early_stopping := none, weight_file := none,
               normalization_method := some "zscore", input_size := (128, 128) } }

/-- C8 counterexample: the claim asserts that with normalization_method
equal to "none" no error is raised; on a configuration whose visualization
section is absent, get_callbacks still fails, because line 171 of the
callbacks module reads config.visualization.log_images and the section is
None. -/
theorem C8_counterexample :
    c8Config.model.normalization_method = some "none"
      ∧ (get_callbacks c8Config).1 = Except.error (CbErr.attributeError
          "NoneType object has no attribute log_images") :=
  ⟨rfl, rfl⟩

/-- C8 (amended): get_callbacks raises the value error naming the
offending string exactly when normalization_method is present and none of
"none", "cdf", "min_max" — for a recognized or absent method no value
error can arise — and when the key is absent or "none", no normalization
hook is added and the assembly succeeds, provided the visualization
section is present with its flags off and no deprecated log_images_to key
is set (an absent visualization section still raises an attribute
error). -/
theorem C8_normalization_method_validation :
    (∀ (config : Config) (m : String), config.model.normalization_method = some m →
      m ≠ "none" → m ≠ "cdf" → m ≠ "min_max" →
      (get_callbacks config).1 = Except.error (CbErr.valueError
        ("Normalization method not recognized: " ++ m)))
    ∧ (∀ (config : Config) (s : String),
      (config.model.normalization_method = none
        ∨ config.model.normalization_method = some "none"
        ∨ config.model.normalization_method = some "cdf"
        ∨ config.model.normalization_method = some "min_max") →
      (get_callbacks config).1 ≠ Except.error (CbErr.valueError s))
    ∧ (∀ (config : Config) (vis : VisualizationConfig),
      (config.model.normalization_method = none
        ∨ config.model.normalization_method = some "none") →
      config.visualization = some vis →
      vis.log_images = some false → vis.save_images = some false →
      vis.show_images = some false →
      config.project.log_images_to = none → config.logging.log_images_to = none →
      ∃ cbs, get_callbacks config = (Except.ok cbs, config)
        ∧ Callback.cdfNormalization ∉ cbs ∧ Callback.minMaxNormalization ∉ cbs) := by
  refine ⟨?_, ?_, ?_⟩
  · intro config m hm h1 h2 h3
    exact get_callbacks_norm_error config _
      (normalizationStep_unknown config m hm h1 h2 h3)
  · intro config s hm hcon
    unfold get_callbacks at hcon
    cases hn : normalizationStep config with
    | error e =>
      rw [hn] at hcon
      dsimp only at hcon
      have he : e = CbErr.valueError s := Except.error.inj hcon
      exact normalizationStep_not_valueError config hm s (he ▸ hn)
    | ok normCbs =>
      rw [hn] at hcon
      dsimp only at hcon
      rcases hav : add_visualizer_callback (baseCallbacks config ++ normCbs) config
        with ⟨f, c1⟩
      rw [hav] at hcon
      cases f with
      | error e =>
        dsimp only at hcon
        have he : e = CbErr.valueError s := Except.error.inj hcon
        have herr := add_visualizer_error (baseCallbacks config ++ normCbs) config e
          (by rw [hav])
        rcases herr with herr | herr <;> rw [he] at herr <;> exact CbErr.noConfusion herr
      | ok cbs2 => exact Except.noConfusion hcon
  · intro config vis hm hv hl hs hsi hp hg
    refine ⟨baseCallbacks config ++ [] ++ optimizationCallbacks config
        ++ graphCallbacks config,
      get_callbacks_skip config vis hm hv hl hs hsi hp hg, ?_, ?_⟩
    · intro hmem
      rcases List.mem_append.mp hmem with hmem2 | hmem2
      · rcases List.mem_append.mp hmem2 with hmem3 | hmem3
        · rcases List.mem_append.mp hmem3 with hmem4 | hmem4
          · exact (no_norm_in_base config).1 hmem4
          · simp at hmem4
        · exact (no_norm_in_opt config).1 hmem3
      · exact (no_norm_in_graph config).1 hmem2
    · intro hmem
      rcases List.mem_append.mp hmem with hmem2 | hmem2
      · rcases List.mem_append.mp hmem2 with hmem3 | hmem3
        · rcases List.mem_append.mp hmem3 with hmem4 | hmem4
          · exact (no_norm_in_base config).2 hmem4
          · simp at hmem4
        · exact (no_norm_in_opt config).2 hmem3
      · exact (no_norm_in_graph config).2 hmem2

/-- C8 witness: the amended theorem applied at the concrete configuration
with the unrecognized method "zscore" and at the concrete all-off
configuration with method "none". -/
theorem C8_witness :
    (get_callbacks c8UnknownConfig).1 = Except.error (CbErr.valueError
        "Normalization method not recognized: zscore")
      ∧ ∃ cbs, get_callbacks c8SkipConfig = (Except.ok cbs, c8SkipConfig)
        ∧ Callback.cdfNormalization ∉ cbs ∧ Callback.minMaxNormalization ∉ cbs :=
  ⟨C8_normalization_method_validation.1 c8UnknownConfig "zscore" rfl (by decide)
      (by decide) (by decide),
    C8_normalization_method_validation.2.2 c8SkipConfig c8OffVisualization
      (Or.inr rfl) rfl rfl rfl rfl rfl rfl⟩


/-- Configuration whose deprecated log_images_to key is present and
non-empty only under logging, with no visualization section: the input on
which callback assembly creates the section but then crashes reading
config.project.log_images_to, setting neither flag. -/
def c10LoggingOnlyConfig : Config :=
  { project := { path := "proj10", log_images_to := none }
    model := { name := "padim", early_stopping := none, weight_file := none,
               normalization_method := none, input_size := (64, 64) }
    metrics := { image := none, pixel := none,
                 threshold := { adaptive := true, image_default := none,
                                pixel_default := none } }
    optimization := none
    logging := { log_graph := none, log_images_to := some ["tensorboard"] }
    visualization := none
    dataset := { task := "segmentation" } }

/-- The c10 configuration with the deprecated key under project instead,
holding the value ["local"]. -/
def c10ProjLocalConfig : Config :=
  { c10LoggingOnlyConfig with
    project := { path := "proj10", log_images_to := some ["local"] }
    logging := { log_graph := none, log_images_to := none } }

/-- The c10 configuration with no deprecated key anywhere. -/
def c10EmptyConfig : Config :=
  { c10LoggingOnlyConfig with
    logging := { log_graph := none, log_images_to := none } }

/-- C10 counterexample: the claim asserts that whenever the deprecated
log_images_to key is present and non-empty under project or logging, the
assembly sets visualization.save_images and/or visualization.log_images to
True.  With the key present only under logging and absent under project,
line 167 of the callbacks module iterates config.project.log_images_to,
which is None: the visualization section has been created (a mutation),
but both flags are still False and the assembly fails with a type
error. -/
theorem C10_counterexample :
    c10LoggingOnlyConfig.logging.log_images_to = some ["tensorboard"]
      ∧ c10LoggingOnlyConfig.project.log_images_to = none
      ∧ (get_callbacks c10LoggingOnlyConfig).1 = Except.error (CbErr.typeError
          "argument of type NoneType is not iterable")
      ∧ (get_callbacks c10LoggingOnlyConfig).2.visualization = some createdVisualization
      ∧ createdVisualization.save_images = some false
      ∧ createdVisualization.log_images = some false :=
  ⟨rfl, rfl, rfl, rfl, rfl, rfl⟩

/-- C10 (amended): provided the normalization step does not abort first,
(a) when the deprecated log_images_to key is present and non-empty under
project, get_callbacks leaves the configuration with a visualization
section in which save_images is True if "local" is listed, log_images is
True if "local" is missing or more than one sink is listed, and at least
one of the two is True; (b) when the key is non-empty under logging but
absent under project, the visualization section is still created if it was
absent, but assembly fails with a type error and neither flag is set; and
(c) when the key is absent or empty under both sections, the configuration
object is returned unchanged. -/
theorem C10_deprecated_migration :
    (∀ (config : Config) (l : List String) (normCbs : List Callback),
      normalizationStep config = Except.ok normCbs →
      config.project.log_images_to = some l → l ≠ [] →
      ∃ v, ((get_callbacks config).2).visualization = some v
        ∧ (l.contains "local" = true → v.save_images = some true)
        ∧ (l.contains "local" = false ∨ 1 < l.length → v.log_images = some true)
        ∧ (v.save_images = some true ∨ v.log_images = some true))
    ∧ (∀ (config : Config) (normCbs : List Callback),
      normalizationStep config = Except.ok normCbs →
      config.project.log_images_to = none →
      lenPos config.logging.log_images_to = true →
      (get_callbacks config).1 = Except.error (CbErr.typeError
          "argument of type NoneType is not iterable")
        ∧ (config.visualization = none →
            (get_callbacks config).2
              = { config with visualization := some createdVisualization })
        ∧ (∀ v, config.visualization = some v → (get_callbacks config).2 = config))
    ∧ (∀ config : Config,
      lenPos config.project.log_images_to = false →
      lenPos config.logging.log_images_to = false →
      (get_callbacks config).2 = config) := by
  refine ⟨?_, ?_, ?_⟩
  · intro config l normCbs hnorm hproj hlne
    have htrig : (lenPos config.project.log_images_to
        || lenPos config.logging.log_images_to) = true := by
      rw [hproj]
      have hl : lenPos (some l) = true := by
        simp only [lenPos, decide_eq_true_eq]
        exact List.length_pos.mpr hlne
      rw [hl, Bool.true_or]
    have hsnd : (get_callbacks config).2
        = (add_visualizer_callback (baseCallbacks config ++ normCbs) config).2 := by
      unfold get_callbacks
      rw [hnorm]
      dsimp only
      rcases hav : add_visualizer_callback (baseCallbacks config ++ normCbs) config
        with ⟨f, c1⟩
      cases f <;> rfl
    rw [hsnd]
    unfold add_visualizer_callback
    rw [if_pos htrig]
    dsimp only
    cases hv : config.visualization with
    | none =>
      dsimp only
      rw [hproj]
      dsimp only
      rw [visualizerStep_snd]
      obtain ⟨v, h1, h2, h3, h4⟩ :=
        migrate_exists { config with visualization := some createdVisualization }
          createdVisualization rfl l
      exact ⟨v, h1, h2, h3, h4 hlne⟩
    | some vis =>
      dsimp only
      rw [hproj]
      dsimp only
      rw [visualizerStep_snd]
      obtain ⟨v, h1, h2, h3, h4⟩ := migrate_exists config vis hv l
      exact ⟨v, h1, h2, h3, h4 hlne⟩
  · intro config normCbs hnorm hproj hlog
    have htrig : (lenPos config.project.log_images_to
        || lenPos config.logging.log_images_to) = true := by
      rw [hlog, Bool.or_true]
    have hget : get_callbacks config
        = (Except.error (CbErr.typeError "argument of type NoneType is not iterable"),
           match config.visualization with
           | none => { config with visualization := some createdVisualization }
           | some _ => config) := by
      unfold get_callbacks
      rw [hnorm]
      dsimp only
      have hadd : add_visualizer_callback (baseCallbacks config ++ normCbs) config
          = (Except.error (CbErr.typeError "argument of type NoneType is not iterable"),
             match config.visualization with
             | none => { config with visualization := some createdVisualization }
             | some _ => config) := by
        unfold add_visualizer_callback
        rw [if_pos htrig]
        dsimp only
        cases hv : config.visualization with
        | none =>
          dsimp only
          rw [hproj]
        | some v =>
          dsimp only
          rw [hproj]
      rw [hadd]
    refine ⟨by rw [hget], ?_, ?_⟩
    · intro hv
      rw [hget, hv]
    · intro v hv
      rw [hget, hv]
  · intro config hp hg
    have hadd : ∀ cbs, (add_visualizer_callback cbs config).2 = config := by
      intro cbs
      unfold add_visualizer_callback
      rw [hp, hg]
      rw [if_neg (by rw [Bool.or_self]; exact Bool.false_ne_true)]
      exact visualizerStep_snd cbs config
    unfold get_callbacks
    cases hn : normalizationStep config with
    | error e => rfl
    | ok normCbs =>
      dsimp only
      rcases hav : add_visualizer_callback (baseCallbacks config ++ normCbs) config
        with ⟨f, c1⟩
      have h2 := hadd (baseCallbacks config ++ normCbs)
      rw [hav] at h2
      cases f <;> exact h2

/-- C10 witness: the amended theorem applied at the concrete configuration
with log_images_to ["local"] under project, and at the concrete
configuration with no deprecated key, which assembly leaves unchanged. -/
theorem C10_witness :
    (∃ v, ((get_callbacks c10ProjLocalConfig).2).visualization = some v
        ∧ ((["local"] : List String).contains "local" = true → v.save_images = some true)
        ∧ ((["local"] : List String).contains "local" = false
            ∨ 1 < (["local"] : List String).length → v.log_images = some true)
        ∧ (v.save_images = some true ∨ v.log_images = some true))
      ∧ (get_callbacks c10EmptyConfig).2 = c10EmptyConfig :=
  ⟨C10_deprecated_migration.1 c10ProjLocalConfig ["local"] [] rfl rfl
      (List.cons_ne_nil _ _),
    C10_deprecated_migration.2.2 c10EmptyConfig rfl rfl⟩


end Anomalib
